import Mathlib

/-!
Verification of `node-agnostic-datastream-interface`.

The repository defines, in `include/nadi/message_validation.hpp`, a family of
pure JSON schema validators for the NADI control plane (namespace
`nadi::validation`), and in `nadi.h` the C ABI surface: the `nadi_status`
enumeration, the `nadi_message` struct with its release callback, and the
documented ownership contract of `nadi_send` / `nadi_free`.

We shallowly embed the JSON data model of nlohmann::json as an inductive type
and translate each validator statement-by-statement into an `Option Bool`
computation: every C++ subscript access `msg[key]` / `array[i]` becomes an
`Option`-valued access that yields `none` when the element is absent (the
undefined-behaviour case of `operator[] const` on a missing key / out-of-range
index), while every `return false` becomes `some false`.  A validator is
crash-free exactly when its embedding never returns `none`.
-/

/-- JSON values as stored by nlohmann::json.  Integer-typed numbers (`num`) are
distinguished from float-typed numbers (`fnum`, payload modelled exactly as a
rational) because `is_number_integer()` discriminates on the stored type. -/
inductive Json where
  | null
  | bool (b : Bool)
  | num (n : Int)
  | fnum (q : ℚ)
  | str (s : String)
  | arr (elems : List Json)
  | obj (entries : List (String × Json))

/-- First-match lookup in an object's entry list, as `nlohmann::json::find`. -/
def lookupEntry : List (String × Json) → String → Option Json
  | [], _ => none
  | (k', v) :: rest, k => if k' = k then some v else lookupEntry rest k

/-- Key access `j[k]` on a const json: `some` value when `j` is an object
containing `k`, otherwise `none` (out-of-contract access). -/
def Json.getKey : Json → String → Option Json
  | Json.obj entries, k => lookupEntry entries k
  | _, _ => none

/-- The check `j.contains(k)`: true when `j` is an object with key `k`. -/
def Json.containsKey (j : Json) (k : String) : Bool :=
  (j.getKey k).isSome

/-- Index access `j[i]` on a const json: `some` element when `j` is an array
and `i` is in range, otherwise `none` (out-of-contract access). -/
def Json.getIdx : Json → Nat → Option Json
  | Json.arr l, i => l.get? i
  | _, _ => none

/-- The `size()` member: element count for containers, 0 for null, 1 for
primitives, exactly as nlohmann::json defines it. -/
def Json.size : Json → Nat
  | Json.null => 0
  | Json.arr l => l.length
  | Json.obj entries => entries.length
  | _ => 1

/-- The `is_object()` type query. -/
def Json.isObject : Json → Bool
  | Json.obj _ => true
  | _ => false

/-- The `is_array()` type query. -/
def Json.isArray : Json → Bool
  | Json.arr _ => true
  | _ => false

/-- The `is_string()` type query. -/
def Json.isString : Json → Bool
  | Json.str _ => true
  | _ => false

/-- The `is_number_integer()` type query: true only for integer-typed numbers. -/
def Json.isInt : Json → Bool
  | Json.num _ => true
  | _ => false

/-- Comparison `j == s` of a json value against a string literal: equal exactly
when `j` holds that string. -/
def Json.eqStr : Json → String → Bool
  | Json.str s', s => s' = s
  | _, _ => false

/-- Range-`for` iteration over a json value, as nlohmann's iterators yield it:
the elements of an array, the values of an object, nothing for null, and the
value itself for a primitive. -/
def Json.iterVals : Json → List Json
  | Json.arr l => l
  | Json.obj entries => entries.map Prod.snd
  | Json.null => []
  | v => [v]

/-! ### Statement combinators

Each C++ validator is a sequence of `if (...) return false;` statements ending
in `return true;`.  `vAnd c rest` runs statement `c`; `some false` aborts the
whole validator with `false`, `some true` continues with `rest`, and `none`
(a crashed access) aborts with `none`. -/

/-- Sequencing of one validator statement before the rest of the body. -/
def vAnd (c rest : Option Bool) : Option Bool :=
  c.bind fun b => if b then rest else some false

/-- A statement `if (!j.contains(k) || !check(j[k])) return false;`: the access
`j[k]` happens only behind the `contains` guard. -/
def reqField (j : Json) (k : String) (p : Json → Option Bool) : Option Bool :=
  if j.containsKey k then (j.getKey k).bind p else some false

/-- A statement `if (j.contains(k) && !check(j[k])) return false;`: an optional
field whose check runs only when the key is present. -/
def optField (j : Json) (k : String) (p : Json → Option Bool) : Option Bool :=
  if j.containsKey k then (j.getKey k).bind p else some true

/-- An unguarded access `j[k]` followed by a check: crashes (`none`) when the
key is absent.  Used where the C++ re-subscripts a key whose presence was
established by an earlier statement. -/
def rawKey (j : Json) (k : String) (p : Json → Option Bool) : Option Bool :=
  (j.getKey k).bind p

/-- An unguarded access `j[k][i]` followed by a pure check: crashes when the
key is absent or the index out of range. -/
def rawIdx (j : Json) (k : String) (i : Nat) (p : Json → Bool) : Option Bool :=
  (j.getKey k).bind fun s => (s.getIdx i).map p

/-- A `for (const auto& x : l) { ... return false ... }` loop whose body may
abort the whole validator: `some false` and `none` short-circuit. -/
def allSome (body : Json → Option Bool) : List Json → Option Bool
  | [] => some true
  | x :: xs =>
    match body x with
    | none => none
    | some false => some false
    | some true => allSome body xs

/-! ### The validators of namespace `nadi::validation`

Each `...O` definition is the statement-by-statement translation of the
corresponding C++ function; the same-named `Bool` function is its value
(meaningful whenever the computation is crash-free, which is proved below). -/

/-- Per-channel body of the loops in `validate_context_abstract_nodes_list`
(header lines 33-36 and 42-45): object, required integer `number`, optional
string `name`, optional `data types` checked only for being an array. -/
def channelCheck (channel : Json) : Option Bool :=
  vAnd (some channel.isObject) <|
  vAnd (reqField channel "number" fun v => some v.isInt) <|
  vAnd (optField channel "name" fun v => some v.isString) <|
  (optField channel "data types" fun v => some v.isArray)

/-- Body of the `if (instance.contains("channels"))` block (lines 29-47). -/
def channelsBlock (inst : Json) : Option Bool :=
  vAnd (rawKey inst "channels" fun ch => some ch.isObject) <|
  vAnd (rawKey inst "channels" fun ch =>
    if ch.containsKey "input" then
      vAnd (rawKey ch "input" fun a => some a.isArray) <|
      (rawKey ch "input" fun a => allSome channelCheck a.iterVals)
    else some true) <|
  (rawKey inst "channels" fun ch =>
    if ch.containsKey "output" then
      vAnd (rawKey ch "output" fun a => some a.isArray) <|
      (rawKey ch "output" fun a => allSome channelCheck a.iterVals)
    else some true)

/-- Per-instance body of the loop in `validate_context_abstract_nodes_list`
(lines 24-48). -/
def instanceCheck (inst : Json) : Option Bool :=
  vAnd (some inst.isObject) <|
  vAnd (reqField inst "name" fun v => some v.isString) <|
  vAnd (reqField inst "version" fun v => some v.isString) <|
  vAnd (optField inst "description" fun v => some v.isString) <|
  (if inst.containsKey "channels" then channelsBlock inst else some true)

/-- Translation of `validate_context_abstract_nodes` (lines 9-15). -/
def validate_context_abstract_nodesO (msg : Json) : Option Bool :=
  vAnd (some msg.isObject) <|
  vAnd (reqField msg "type" fun t => some (t.isString && t.eqStr "context.abstract_nodes")) <|
  (reqField msg "id" fun v => some v.isString)

/-- Boolean value of `validate_context_abstract_nodes`. -/
def validate_context_abstract_nodes (msg : Json) : Bool :=
  (validate_context_abstract_nodesO msg).getD false

/-- Translation of `validate_context_abstract_nodes_list` (lines 17-51). -/
def validate_context_abstract_nodes_listO (msg : Json) : Option Bool :=
  vAnd (some msg.isObject) <|
  vAnd (reqField msg "type" fun t => some (t.isString && t.eqStr "context.abstract_nodes.list")) <|
  vAnd (reqField msg "instances" fun v => some v.isArray) <|
  vAnd (reqField msg "id" fun v => some v.isString) <|
  (rawKey msg "instances" fun a => allSome instanceCheck a.iterVals)

/-- Boolean value of `validate_context_abstract_nodes_list`. -/
def validate_context_abstract_nodes_list (msg : Json) : Bool :=
  (validate_context_abstract_nodes_listO msg).getD false

/-- Translation of `validate_context_connect` (lines 53-65). -/
def validate_context_connectO (msg : Json) : Option Bool :=
  vAnd (some msg.isObject) <|
  vAnd (reqField msg "type" fun t => some (t.isString && t.eqStr "context.connect")) <|
  vAnd (reqField msg "source" fun s => some (s.isArray && s.size == 2)) <|
  vAnd (reqField msg "destination" fun d => some (d.isArray && d.size == 2)) <|
  vAnd (rawIdx msg "source" 0 fun v => v.isString || v.isInt) <|
  vAnd (rawIdx msg "source" 1 fun v => v.isInt) <|
  vAnd (rawIdx msg "destination" 0 fun v => v.isString || v.isInt) <|
  vAnd (rawIdx msg "destination" 1 fun v => v.isInt) <|
  (optField msg "id" fun v => some v.isString)

/-- Boolean value of `validate_context_connect`. -/
def validate_context_connect (msg : Json) : Bool :=
  (validate_context_connectO msg).getD false

/-- Translation of `validate_context_connect_confirm` (lines 67-74). -/
def validate_context_connect_confirmO (msg : Json) : Option Bool :=
  vAnd (some msg.isObject) <|
  vAnd (reqField msg "type" fun t => some (t.isString && t.eqStr "context.connect.confirm")) <|
  vAnd (reqField msg "status" fun v => some v.isString) <|
  (optField msg "id" fun v => some v.isString)

/-- Boolean value of `validate_context_connect_confirm`. -/
def validate_context_connect_confirm (msg : Json) : Bool :=
  (validate_context_connect_confirmO msg).getD false

/-- Translation of `validate_context_connections` (lines 76-82). -/
def validate_context_connectionsO (msg : Json) : Option Bool :=
  vAnd (some msg.isObject) <|
  vAnd (reqField msg "type" fun t => some (t.isString && t.eqStr "context.connections")) <|
  (reqField msg "id" fun v => some v.isString)

/-- Boolean value of `validate_context_connections`. -/
def validate_context_connections (msg : Json) : Bool :=
  (validate_context_connectionsO msg).getD false

/-- Per-connection body of the loop in `validate_context_connections_list`
(lines 91-97). -/
def connCheck (conn : Json) : Option Bool :=
  vAnd (some conn.isObject) <|
  vAnd (reqField conn "source" fun s => some (s.isArray && s.size == 2)) <|
  vAnd (reqField conn "target" fun t => some (t.isArray && t.size == 2)) <|
  vAnd (rawIdx conn "source" 0 fun v => v.isString || v.isInt) <|
  vAnd (rawIdx conn "source" 1 fun v => v.isInt) <|
  vAnd (rawIdx conn "target" 0 fun v => v.isString || v.isInt) <|
  (rawIdx conn "target" 1 fun v => v.isInt)

/-- Translation of `validate_context_connections_list` (lines 84-100). -/
def validate_context_connections_listO (msg : Json) : Option Bool :=
  vAnd (some msg.isObject) <|
  vAnd (reqField msg "type" fun t => some (t.isString && t.eqStr "context.connections.list")) <|
  vAnd (reqField msg "connections" fun v => some v.isArray) <|
  vAnd (reqField msg "id" fun v => some v.isString) <|
  (rawKey msg "connections" fun a => allSome connCheck a.iterVals)

/-- Boolean value of `validate_context_connections_list`. -/
def validate_context_connections_list (msg : Json) : Bool :=
  (validate_context_connections_listO msg).getD false

/-- Translation of `validate_context_disconnect` (lines 102-114). -/
def validate_context_disconnectO (msg : Json) : Option Bool :=
  vAnd (some msg.isObject) <|
  vAnd (reqField msg "type" fun t => some (t.isString && t.eqStr "context.disconnect")) <|
  vAnd (reqField msg "source" fun s => some (s.isArray && s.size == 2)) <|
  vAnd (reqField msg "destination" fun d => some (d.isArray && d.size == 2)) <|
  vAnd (rawIdx msg "source" 0 fun v => v.isString || v.isInt) <|
  vAnd (rawIdx msg "source" 1 fun v => v.isInt) <|
  vAnd (rawIdx msg "destination" 0 fun v => v.isString || v.isInt) <|
  vAnd (rawIdx msg "destination" 1 fun v => v.isInt) <|
  (optField msg "id" fun v => some v.isString)

/-- Boolean value of `validate_context_disconnect`. -/
def validate_context_disconnect (msg : Json) : Bool :=
  (validate_context_disconnectO msg).getD false

/-- Translation of `validate_context_disconnect_confirm` (lines 116-123). -/
def validate_context_disconnect_confirmO (msg : Json) : Option Bool :=
  vAnd (some msg.isObject) <|
  vAnd (reqField msg "type" fun t => some (t.isString && t.eqStr "context.disconnect.confirm")) <|
  vAnd (reqField msg "status" fun v => some v.isString) <|
  (optField msg "id" fun v => some v.isString)

/-- Boolean value of `validate_context_disconnect_confirm`. -/
def validate_context_disconnect_confirm (msg : Json) : Bool :=
  (validate_context_disconnect_confirmO msg).getD false

/-- Translation of `validate_context_node_create` (lines 125-133). -/
def validate_context_node_createO (msg : Json) : Option Bool :=
  vAnd (some msg.isObject) <|
  vAnd (reqField msg "type" fun t => some (t.isString && t.eqStr "context.node.create")) <|
  vAnd (reqField msg "abstract_name" fun v => some v.isString) <|
  vAnd (reqField msg "instance_name" fun v => some v.isString) <|
  (optField msg "id" fun v => some v.isString)

/-- Boolean value of `validate_context_node_create`. -/
def validate_context_node_create (msg : Json) : Bool :=
  (validate_context_node_createO msg).getD false

/-- Translation of `validate_context_node_create_confirm` (lines 135-143);
note the `"id"` field is required here. -/
def validate_context_node_create_confirmO (msg : Json) : Option Bool :=
  vAnd (some msg.isObject) <|
  vAnd (reqField msg "type" fun t => some (t.isString && t.eqStr "context.node.create.confirm")) <|
  vAnd (reqField msg "node" fun v => some v.isInt) <|
  vAnd (reqField msg "instance_name" fun v => some v.isString) <|
  (reqField msg "id" fun v => some v.isString)

/-- Boolean value of `validate_context_node_create_confirm`. -/
def validate_context_node_create_confirm (msg : Json) : Bool :=
  (validate_context_node_create_confirmO msg).getD false

/-- Translation of `validate_context_node_destroy` (lines 145-152). -/
def validate_context_node_destroyO (msg : Json) : Option Bool :=
  vAnd (some msg.isObject) <|
  vAnd (reqField msg "type" fun t => some (t.isString && t.eqStr "context.node.destroy")) <|
  vAnd (reqField msg "instance_name" fun v => some v.isString) <|
  (optField msg "id" fun v => some v.isString)

/-- Boolean value of `validate_context_node_destroy`. -/
def validate_context_node_destroy (msg : Json) : Bool :=
  (validate_context_node_destroyO msg).getD false

/-- Translation of `validate_context_node_destroy_confirm` (lines 154-161). -/
def validate_context_node_destroy_confirmO (msg : Json) : Option Bool :=
  vAnd (some msg.isObject) <|
  vAnd (reqField msg "type" fun t => some (t.isString && t.eqStr "context.node.destroy.confirm")) <|
  vAnd (reqField msg "status" fun v => some v.isString) <|
  (optField msg "id" fun v => some v.isString)

/-- Boolean value of `validate_context_node_destroy_confirm`. -/
def validate_context_node_destroy_confirm (msg : Json) : Bool :=
  (validate_context_node_destroy_confirmO msg).getD false

/-- Translation of `validate_context_nodes` (lines 163-169). -/
def validate_context_nodesO (msg : Json) : Option Bool :=
  vAnd (some msg.isObject) <|
  vAnd (reqField msg "type" fun t => some (t.isString && t.eqStr "context.nodes")) <|
  (reqField msg "id" fun v => some v.isString)

/-- Boolean value of `validate_context_nodes`. -/
def validate_context_nodes (msg : Json) : Bool :=
  (validate_context_nodesO msg).getD false

/-- Per-instance body of the loop in `validate_context_nodes_list`
(lines 177-180). -/
def nodesInstCheck (inst : Json) : Option Bool :=
  vAnd (some inst.isObject) <|
  (reqField inst "instance" fun v => some v.isString)

/-- Translation of `validate_context_nodes_list` (lines 171-182). -/
def validate_context_nodes_listO (msg : Json) : Option Bool :=
  vAnd (some msg.isObject) <|
  vAnd (reqField msg "type" fun t => some (t.isString && t.eqStr "context.nodes.list")) <|
  vAnd (reqField msg "instances" fun v => some v.isArray) <|
  vAnd (reqField msg "id" fun v => some v.isString) <|
  (rawKey msg "instances" fun a => allSome nodesInstCheck a.iterVals)

/-- Boolean value of `validate_context_nodes_list`. -/
def validate_context_nodes_list (msg : Json) : Bool :=
  (validate_context_nodes_listO msg).getD false

/-- Translation of `validate_node_connect` (lines 184-195): `"source"` must be
a 2-element array of integers (the loop), `"target"` a single integer. -/
def validate_node_connectO (msg : Json) : Option Bool :=
  vAnd (some msg.isObject) <|
  vAnd (reqField msg "type" fun t => some (t.isString && t.eqStr "node.connect")) <|
  vAnd (reqField msg "source" fun s => some (s.isArray && s.size == 2)) <|
  vAnd (reqField msg "target" fun v => some v.isInt) <|
  vAnd (rawKey msg "source" fun s => allSome (fun item => some item.isInt) s.iterVals) <|
  (optField msg "id" fun v => some v.isString)

/-- Boolean value of `validate_node_connect`. -/
def validate_node_connect (msg : Json) : Bool :=
  (validate_node_connectO msg).getD false

/-- Translation of `validate_node_connect_confirm` (lines 197-205). -/
def validate_node_connect_confirmO (msg : Json) : Option Bool :=
  vAnd (some msg.isObject) <|
  vAnd (reqField msg "type" fun t => some (t.isString && t.eqStr "node.connect.confirm")) <|
  vAnd (reqField msg "status" fun v => some v.isString) <|
  vAnd (reqField msg "id" fun v => some v.isString) <|
  (optField msg "message" fun v => some v.isString)

/-- Boolean value of `validate_node_connect_confirm`. -/
def validate_node_connect_confirm (msg : Json) : Bool :=
  (validate_node_connect_confirmO msg).getD false

/-- Translation of `validate_node_disconnect` (lines 207-218). -/
def validate_node_disconnectO (msg : Json) : Option Bool :=
  vAnd (some msg.isObject) <|
  vAnd (reqField msg "type" fun t => some (t.isString && t.eqStr "node.disconnect")) <|
  vAnd (reqField msg "source" fun s => some (s.isArray && s.size == 2)) <|
  vAnd (reqField msg "target" fun v => some v.isInt) <|
  vAnd (rawKey msg "source" fun s => allSome (fun item => some item.isInt) s.iterVals) <|
  (optField msg "id" fun v => some v.isString)

/-- Boolean value of `validate_node_disconnect`. -/
def validate_node_disconnect (msg : Json) : Bool :=
  (validate_node_disconnectO msg).getD false

/-- Translation of `validate_node_disconnect_confirm` (lines 220-227). -/
def validate_node_disconnect_confirmO (msg : Json) : Option Bool :=
  vAnd (some msg.isObject) <|
  vAnd (reqField msg "type" fun t => some (t.isString && t.eqStr "node.disconnect.confirm")) <|
  vAnd (reqField msg "status" fun v => some v.isString) <|
  vAnd (reqField msg "id" fun v => some v.isString) <|
  (optField msg "message" fun v => some v.isString)

/-- Boolean value of `validate_node_disconnect_confirm`. -/
def validate_node_disconnect_confirm (msg : Json) : Bool :=
  (validate_node_disconnect_confirmO msg).getD false

/-! ### Crash-freedom lemmas for the combinators -/

/-- Key presence is equivalent to a successful lookup. -/
theorem containsKey_iff {j : Json} {k : String} :
    j.containsKey k = true ↔ ∃ v, j.getKey k = some v := by
  simp [Json.containsKey, Option.isSome_iff_exists]

/-- Sequencing preserves crash-freedom: the tail only has to be crash-free
when the head check actually passed. -/
theorem vAnd_isSome {c r : Option Bool} (hc : c.isSome) (hr : c = some true → r.isSome) :
    (vAnd c r).isSome := by
  unfold vAnd
  rcases Option.isSome_iff_exists.mp hc with ⟨b, hb⟩
  subst hb
  cases b with
  | false => rfl
  | true => simpa using hr rfl

/-- A guarded required-field check with a pure body never crashes. -/
theorem reqField_pure_isSome (j : Json) (k : String) (q : Json → Bool) :
    (reqField j k fun v => some (q v)).isSome := by
  unfold reqField
  by_cases h : j.containsKey k = true
  · rcases containsKey_iff.mp h with ⟨v, hv⟩
    simp [h, hv]
  · simp [h]

/-- A guarded optional-field check with a pure body never crashes. -/
theorem optField_pure_isSome (j : Json) (k : String) (q : Json → Bool) :
    (optField j k fun v => some (q v)).isSome := by
  unfold optField
  by_cases h : j.containsKey k = true
  · rcases containsKey_iff.mp h with ⟨v, hv⟩
    simp [h, hv]
  · simp [h]

/-- An unguarded key access is crash-free once the key is known present and the
continuation is crash-free on the found value. -/
theorem rawKey_isSome {j : Json} {k : String} {p : Json → Option Bool}
    (hc : j.containsKey k = true) (hp : ∀ v, j.getKey k = some v → (p v).isSome) :
    (rawKey j k p).isSome := by
  unfold rawKey
  rcases containsKey_iff.mp hc with ⟨v, hv⟩
  simpa [hv] using hp v hv

/-- An unguarded indexed access is crash-free once the key is known to hold a
2-element array and the index is below 2. -/
theorem rawIdx_isSome {j : Json} {k : String} {i : Nat} {p : Json → Bool}
    (h : ∃ l, j.getKey k = some (Json.arr l) ∧ l.length = 2) (hi : i < 2) :
    (rawIdx j k i p).isSome := by
  unfold rawIdx
  rcases h with ⟨l, hl, hlen⟩
  have : i < l.length := hlen ▸ hi
  rw [hl]
  simp only [Option.some_bind]
  have hg : (Json.arr l).getIdx i = l.get? i := rfl
  rw [hg, List.get?_eq_get this]
  rfl

/-- A loop is crash-free when its body is crash-free on every element. -/
theorem allSome_isSome {body : Json → Option Bool} :
    ∀ {l : List Json}, (∀ x ∈ l, (body x).isSome) → (allSome body l).isSome := by
  intro l
  induction l with
  | nil => intro _; rfl
  | cons x xs ih =>
    intro h
    unfold allSome
    cases hb : body x with
    | none =>
      have := h x (List.mem_cons_self x xs)
      rw [hb] at this
      exact absurd this (by simp)
    | some b =>
      cases b with
      | false => rfl
      | true => exact ih fun y hy => h y (List.mem_cons_of_mem x hy)

/-- Extraction from a passed required-field check: the key was present and the
pure body held on its value. -/
theorem reqField_pure_true {j : Json} {k : String} {q : Json → Bool}
    (h : reqField j k (fun v => some (q v)) = some true) :
    ∃ v, j.getKey k = some v ∧ q v = true := by
  unfold reqField at h
  by_cases hc : j.containsKey k = true
  · rcases containsKey_iff.mp hc with ⟨v, hv⟩
    rw [if_pos hc, hv] at h
    exact ⟨v, hv, by simpa using h⟩
  · rw [if_neg hc] at h
    simp at h

/-- A passed 2-element-array shape check yields the array literal. -/
theorem pair_shape_of_true {j : Json} {k : String}
    (h : reqField j k (fun s => some (s.isArray && s.size == 2)) = some true) :
    ∃ l, j.getKey k = some (Json.arr l) ∧ l.length = 2 := by
  rcases reqField_pure_true h with ⟨v, hv, hq⟩
  cases v <;> simp [Json.isArray, Json.size] at hq
  case arr l => exact ⟨l, hv, hq⟩

/-! ### Crash-freedom of each validator -/

/-- Every access in the per-channel check is guarded. -/
theorem channelCheck_isSome (c : Json) : (channelCheck c).isSome := by
  unfold channelCheck
  refine vAnd_isSome rfl fun _ => ?_
  refine vAnd_isSome (reqField_pure_isSome _ _ _) fun _ => ?_
  refine vAnd_isSome (optField_pure_isSome _ _ _) fun _ => ?_
  exact optField_pure_isSome _ _ _

/-- The channels block never crashes once `"channels"` is known present. -/
theorem channelsBlock_isSome {inst : Json} (hc : inst.containsKey "channels" = true) :
    (channelsBlock inst).isSome := by
  unfold channelsBlock
  refine vAnd_isSome (rawKey_isSome hc fun _ _ => rfl) fun _ => ?_
  refine vAnd_isSome (rawKey_isSome hc fun ch _ => ?_) fun _ => rawKey_isSome hc fun ch _ => ?_
  · by_cases hin : ch.containsKey "input" = true
    · rw [if_pos hin]
      refine vAnd_isSome (rawKey_isSome hin fun _ _ => rfl) fun _ => ?_
      exact rawKey_isSome hin fun a _ => allSome_isSome fun x _ => channelCheck_isSome x
    · rw [if_neg hin]; rfl
  · by_cases hout : ch.containsKey "output" = true
    · rw [if_pos hout]
      refine vAnd_isSome (rawKey_isSome hout fun _ _ => rfl) fun _ => ?_
      exact rawKey_isSome hout fun a _ => allSome_isSome fun x _ => channelCheck_isSome x
    · rw [if_neg hout]; rfl

/-- Every access in the per-instance check is guarded. -/
theorem instanceCheck_isSome (inst : Json) : (instanceCheck inst).isSome := by
  unfold instanceCheck
  refine vAnd_isSome rfl fun _ => ?_
  refine vAnd_isSome (reqField_pure_isSome _ _ _) fun _ => ?_
  refine vAnd_isSome (reqField_pure_isSome _ _ _) fun _ => ?_
  refine vAnd_isSome (optField_pure_isSome _ _ _) fun _ => ?_
  by_cases hc : inst.containsKey "channels" = true
  · rw [if_pos hc]; exact channelsBlock_isSome hc
  · rw [if_neg hc]; rfl

/-- Crash-freedom of `validate_context_abstract_nodes`. -/
theorem validate_context_abstract_nodesO_isSome (j : Json) :
    (validate_context_abstract_nodesO j).isSome := by
  unfold validate_context_abstract_nodesO
  refine vAnd_isSome rfl fun _ => ?_
  refine vAnd_isSome (reqField_pure_isSome _ _ _) fun _ => ?_
  exact reqField_pure_isSome _ _ _

/-- Crash-freedom of `validate_context_abstract_nodes_list`. -/
theorem validate_context_abstract_nodes_listO_isSome (j : Json) :
    (validate_context_abstract_nodes_listO j).isSome := by
  unfold validate_context_abstract_nodes_listO
  refine vAnd_isSome rfl fun _ => ?_
  refine vAnd_isSome (reqField_pure_isSome _ _ _) fun _ => ?_
  refine vAnd_isSome (reqField_pure_isSome _ _ _) fun hinst => ?_
  refine vAnd_isSome (reqField_pure_isSome _ _ _) fun _ => ?_
  rcases reqField_pure_true hinst with ⟨v, hv, _⟩
  exact rawKey_isSome (containsKey_iff.mpr ⟨v, hv⟩) fun a _ =>
    allSome_isSome fun x _ => instanceCheck_isSome x

/-- Crash-freedom of `validate_context_connect`. -/
theorem validate_context_connectO_isSome (j : Json) :
    (validate_context_connectO j).isSome := by
  unfold validate_context_connectO
  refine vAnd_isSome rfl fun _ => ?_
  refine vAnd_isSome (reqField_pure_isSome _ _ _) fun _ => ?_
  refine vAnd_isSome (reqField_pure_isSome _ _ _) fun hsrc => ?_
  refine vAnd_isSome (reqField_pure_isSome _ _ _) fun hdst => ?_
  have hs := pair_shape_of_true hsrc
  have hd := pair_shape_of_true hdst
  refine vAnd_isSome (rawIdx_isSome hs (by decide)) fun _ => ?_
  refine vAnd_isSome (rawIdx_isSome hs (by decide)) fun _ => ?_
  refine vAnd_isSome (rawIdx_isSome hd (by decide)) fun _ => ?_
  refine vAnd_isSome (rawIdx_isSome hd (by decide)) fun _ => ?_
  exact optField_pure_isSome _ _ _

/-- Crash-freedom of `validate_context_connect_confirm`. -/
theorem validate_context_connect_confirmO_isSome (j : Json) :
    (validate_context_connect_confirmO j).isSome := by
  unfold validate_context_connect_confirmO
  refine vAnd_isSome rfl fun _ => ?_
  refine vAnd_isSome (reqField_pure_isSome _ _ _) fun _ => ?_
  refine vAnd_isSome (reqField_pure_isSome _ _ _) fun _ => ?_
  exact optField_pure_isSome _ _ _

/-- Crash-freedom of `validate_context_connections`. -/
theorem validate_context_connectionsO_isSome (j : Json) :
    (validate_context_connectionsO j).isSome := by
  unfold validate_context_connectionsO
  refine vAnd_isSome rfl fun _ => ?_
  refine vAnd_isSome (reqField_pure_isSome _ _ _) fun _ => ?_
  exact reqField_pure_isSome _ _ _

/-- Every access in the per-connection check is guarded. -/
theorem connCheck_isSome (c : Json) : (connCheck c).isSome := by
  unfold connCheck
  refine vAnd_isSome rfl fun _ => ?_
  refine vAnd_isSome (reqField_pure_isSome _ _ _) fun hsrc => ?_
  refine vAnd_isSome (reqField_pure_isSome _ _ _) fun htgt => ?_
  have hs := pair_shape_of_true hsrc
  have ht := pair_shape_of_true htgt
  refine vAnd_isSome (rawIdx_isSome hs (by decide)) fun _ => ?_
  refine vAnd_isSome (rawIdx_isSome hs (by decide)) fun _ => ?_
  refine vAnd_isSome (rawIdx_isSome ht (by decide)) fun _ => ?_
  exact rawIdx_isSome ht (by decide)

/-- Crash-freedom of `validate_context_connections_list`. -/
theorem validate_context_connections_listO_isSome (j : Json) :
    (validate_context_connections_listO j).isSome := by
  unfold validate_context_connections_listO
  refine vAnd_isSome rfl fun _ => ?_
  refine vAnd_isSome (reqField_pure_isSome _ _ _) fun _ => ?_
  refine vAnd_isSome (reqField_pure_isSome _ _ _) fun hconn => ?_
  refine vAnd_isSome (reqField_pure_isSome _ _ _) fun _ => ?_
  rcases reqField_pure_true hconn with ⟨v, hv, _⟩
  exact rawKey_isSome (containsKey_iff.mpr ⟨v, hv⟩) fun a _ =>
    allSome_isSome fun x _ => connCheck_isSome x

/-- Crash-freedom of `validate_context_disconnect`. -/
theorem validate_context_disconnectO_isSome (j : Json) :
    (validate_context_disconnectO j).isSome := by
  unfold validate_context_disconnectO
  refine vAnd_isSome rfl fun _ => ?_
  refine vAnd_isSome (reqField_pure_isSome _ _ _) fun _ => ?_
  refine vAnd_isSome (reqField_pure_isSome _ _ _) fun hsrc => ?_
  refine vAnd_isSome (reqField_pure_isSome _ _ _) fun hdst => ?_
  have hs := pair_shape_of_true hsrc
  have hd := pair_shape_of_true hdst
  refine vAnd_isSome (rawIdx_isSome hs (by decide)) fun _ => ?_
  refine vAnd_isSome (rawIdx_isSome hs (by decide)) fun _ => ?_
  refine vAnd_isSome (rawIdx_isSome hd (by decide)) fun _ => ?_
  refine vAnd_isSome (rawIdx_isSome hd (by decide)) fun _ => ?_
  exact optField_pure_isSome _ _ _

/-- Crash-freedom of `validate_context_disconnect_confirm`. -/
theorem validate_context_disconnect_confirmO_isSome (j : Json) :
    (validate_context_disconnect_confirmO j).isSome := by
  unfold validate_context_disconnect_confirmO
  refine vAnd_isSome rfl fun _ => ?_
  refine vAnd_isSome (reqField_pure_isSome _ _ _) fun _ => ?_
  refine vAnd_isSome (reqField_pure_isSome _ _ _) fun _ => ?_
  exact optField_pure_isSome _ _ _

/-- Crash-freedom of `validate_context_node_create`. -/
theorem validate_context_node_createO_isSome (j : Json) :
    (validate_context_node_createO j).isSome := by
  unfold validate_context_node_createO
  refine vAnd_isSome rfl fun _ => ?_
  refine vAnd_isSome (reqField_pure_isSome _ _ _) fun _ => ?_
  refine vAnd_isSome (reqField_pure_isSome _ _ _) fun _ => ?_
  refine vAnd_isSome (reqField_pure_isSome _ _ _) fun _ => ?_
  exact optField_pure_isSome _ _ _

/-- Crash-freedom of `validate_context_node_create_confirm`. -/
theorem validate_context_node_create_confirmO_isSome (j : Json) :
    (validate_context_node_create_confirmO j).isSome := by
  unfold validate_context_node_create_confirmO
  refine vAnd_isSome rfl fun _ => ?_
  refine vAnd_isSome (reqField_pure_isSome _ _ _) fun _ => ?_
  refine vAnd_isSome (reqField_pure_isSome _ _ _) fun _ => ?_
  refine vAnd_isSome (reqField_pure_isSome _ _ _) fun _ => ?_
  exact reqField_pure_isSome _ _ _

/-- Crash-freedom of `validate_context_node_destroy`. -/
theorem validate_context_node_destroyO_isSome (j : Json) :
    (validate_context_node_destroyO j).isSome := by
  unfold validate_context_node_destroyO
  refine vAnd_isSome rfl fun _ => ?_
  refine vAnd_isSome (reqField_pure_isSome _ _ _) fun _ => ?_
  refine vAnd_isSome (reqField_pure_isSome _ _ _) fun _ => ?_
  exact optField_pure_isSome _ _ _

/-- Crash-freedom of `validate_context_node_destroy_confirm`. -/
theorem validate_context_node_destroy_confirmO_isSome (j : Json) :
    (validate_context_node_destroy_confirmO j).isSome := by
  unfold validate_context_node_destroy_confirmO
  refine vAnd_isSome rfl fun _ => ?_
  refine vAnd_isSome (reqField_pure_isSome _ _ _) fun _ => ?_
  refine vAnd_isSome (reqField_pure_isSome _ _ _) fun _ => ?_
  exact optField_pure_isSome _ _ _

/-- Crash-freedom of `validate_context_nodes`. -/
theorem validate_context_nodesO_isSome (j : Json) :
    (validate_context_nodesO j).isSome := by
  unfold validate_context_nodesO
  refine vAnd_isSome rfl fun _ => ?_
  refine vAnd_isSome (reqField_pure_isSome _ _ _) fun _ => ?_
  exact reqField_pure_isSome _ _ _

/-- Every access in the per-node-instance check is guarded. -/
theorem nodesInstCheck_isSome (inst : Json) : (nodesInstCheck inst).isSome := by
  unfold nodesInstCheck
  refine vAnd_isSome rfl fun _ => ?_
  exact reqField_pure_isSome _ _ _

/-- Crash-freedom of `validate_context_nodes_list`. -/
theorem validate_context_nodes_listO_isSome (j : Json) :
    (validate_context_nodes_listO j).isSome := by
  unfold validate_context_nodes_listO
  refine vAnd_isSome rfl fun _ => ?_
  refine vAnd_isSome (reqField_pure_isSome _ _ _) fun _ => ?_
  refine vAnd_isSome (reqField_pure_isSome _ _ _) fun hinst => ?_
  refine vAnd_isSome (reqField_pure_isSome _ _ _) fun _ => ?_
  rcases reqField_pure_true hinst with ⟨v, hv, _⟩
  exact rawKey_isSome (containsKey_iff.mpr ⟨v, hv⟩) fun a _ =>
    allSome_isSome fun x _ => nodesInstCheck_isSome x

/-- Crash-freedom of `validate_node_connect`. -/
theorem validate_node_connectO_isSome (j : Json) :
    (validate_node_connectO j).isSome := by
  unfold validate_node_connectO
  refine vAnd_isSome rfl fun _ => ?_
  refine vAnd_isSome (reqField_pure_isSome _ _ _) fun _ => ?_
  refine vAnd_isSome (reqField_pure_isSome _ _ _) fun hsrc => ?_
  refine vAnd_isSome (reqField_pure_isSome _ _ _) fun _ => ?_
  rcases reqField_pure_true hsrc with ⟨v, hv, _⟩
  refine vAnd_isSome (rawKey_isSome (containsKey_iff.mpr ⟨v, hv⟩) fun a _ =>
    allSome_isSome fun x _ => rfl) fun _ => ?_
  exact optField_pure_isSome _ _ _

/-- Crash-freedom of `validate_node_connect_confirm`. -/
theorem validate_node_connect_confirmO_isSome (j : Json) :
    (validate_node_connect_confirmO j).isSome := by
  unfold validate_node_connect_confirmO
  refine vAnd_isSome rfl fun _ => ?_
  refine vAnd_isSome (reqField_pure_isSome _ _ _) fun _ => ?_
  refine vAnd_isSome (reqField_pure_isSome _ _ _) fun _ => ?_
  refine vAnd_isSome (reqField_pure_isSome _ _ _) fun _ => ?_
  exact optField_pure_isSome _ _ _

/-- Crash-freedom of `validate_node_disconnect`. -/
theorem validate_node_disconnectO_isSome (j : Json) :
    (validate_node_disconnectO j).isSome := by
  unfold validate_node_disconnectO
  refine vAnd_isSome rfl fun _ => ?_
  refine vAnd_isSome (reqField_pure_isSome _ _ _) fun _ => ?_
  refine vAnd_isSome (reqField_pure_isSome _ _ _) fun hsrc => ?_
  refine vAnd_isSome (reqField_pure_isSome _ _ _) fun _ => ?_
  rcases reqField_pure_true hsrc with ⟨v, hv, _⟩
  refine vAnd_isSome (rawKey_isSome (containsKey_iff.mpr ⟨v, hv⟩) fun a _ =>
    allSome_isSome fun x _ => rfl) fun _ => ?_
  exact optField_pure_isSome _ _ _

/-- Crash-freedom of `validate_node_disconnect_confirm`. -/
theorem validate_node_disconnect_confirmO_isSome (j : Json) :
    (validate_node_disconnect_confirmO j).isSome := by
  unfold validate_node_disconnect_confirmO
  refine vAnd_isSome rfl fun _ => ?_
  refine vAnd_isSome (reqField_pure_isSome _ _ _) fun _ => ?_
  refine vAnd_isSome (reqField_pure_isSome _ _ _) fun _ => ?_
  refine vAnd_isSome (reqField_pure_isSome _ _ _) fun _ => ?_
  exact optField_pure_isSome _ _ _

/-! ### Value lemmas: the Boolean meaning of each combinator -/

/-- A crash-free computation equal to `true` is literally `some true`. -/
theorem getD_true_iff {o : Option Bool} : o.getD false = true ↔ o = some true := by
  cases o <;> simp

/-- Sequencing computes conjunction at the value level. -/
theorem vAnd_getD (c r : Option Bool) :
    (vAnd c r).getD false = (c.getD false && r.getD false) := by
  unfold vAnd
  cases c with
  | none => rfl
  | some b => cases b <;> simp

/-- Sequencing passes exactly when both statements pass. -/
theorem vAnd_true_iff {c r : Option Bool} :
    vAnd c r = some true ↔ c = some true ∧ r = some true := by
  unfold vAnd
  cases c with
  | none => simp
  | some b => cases b <;> simp

/-- Value of a required-field check with a pure body. -/
theorem reqField_pure_getD (j : Json) (k : String) (q : Json → Bool) :
    (reqField j k fun v => some (q v)).getD false = (j.getKey k).elim false q := by
  unfold reqField
  by_cases h : j.containsKey k = true
  · rcases containsKey_iff.mp h with ⟨v, hv⟩
    simp [h, hv]
  · have : j.getKey k = none := by
      cases hg : j.getKey k with
      | none => rfl
      | some v => exact absurd (containsKey_iff.mpr ⟨v, hg⟩) h
    simp [h, this]

/-- Value of an optional-field check with a pure body. -/
theorem optField_pure_getD (j : Json) (k : String) (q : Json → Bool) :
    (optField j k fun v => some (q v)).getD false = (j.getKey k).elim true q := by
  unfold optField
  by_cases h : j.containsKey k = true
  · rcases containsKey_iff.mp h with ⟨v, hv⟩
    simp [h, hv]
  · have : j.getKey k = none := by
      cases hg : j.getKey k with
      | none => rfl
      | some v => exact absurd (containsKey_iff.mpr ⟨v, hg⟩) h
    simp [h, this]

/-- Value of an unguarded key access (crash counts as `false`). -/
theorem rawKey_getD (j : Json) (k : String) (p : Json → Option Bool) :
    (rawKey j k p).getD false = (j.getKey k).elim false fun v => (p v).getD false := by
  unfold rawKey
  cases j.getKey k <;> simp

/-- Value of an unguarded indexed access (crash counts as `false`). -/
theorem rawIdx_getD (j : Json) (k : String) (i : Nat) (p : Json → Bool) :
    (rawIdx j k i p).getD false =
      ((j.getKey k).bind fun s => s.getIdx i).elim false p := by
  unfold rawIdx
  cases j.getKey k with
  | none => rfl
  | some s => cases h : s.getIdx i <;> simp [h]

/-- Value of a loop: the pointwise conjunction over the elements. -/
theorem allSome_getD (body : Json → Option Bool) :
    ∀ l : List Json, (allSome body l).getD false = l.all fun x => (body x).getD false := by
  intro l
  induction l with
  | nil => rfl
  | cons x xs ih =>
    unfold allSome
    cases hb : body x with
    | none => simp [hb]
    | some b => cases b <;> simp [hb, ih]

/-! ### The `nadi_status` enumeration of `nadi.h` -/

/-- Status code `NADI_OK` of the `nadi_status` enumeration. -/
def NADI_OK : Int := 0

/-- Status code `NADI_INVALID_NODE`. -/
def NADI_INVALID_NODE : Int := -1

/-- Status code `NADI_INVALID_MESSAGE`. -/
def NADI_INVALID_MESSAGE : Int := -2

/-- Status code `NADI_NOT_INITIALIZED`. -/
def NADI_NOT_INITIALIZED : Int := -3

/-- Status code `NADI_INVALID_CHANNEL`. -/
def NADI_INVALID_CHANNEL : Int := -4

/-- Status code `NADI_BUFFER_TOO_SMALL`. -/
def NADI_BUFFER_TOO_SMALL : Int := -5

/-! ### Dispatch & Ownership Core (modelled from the spec)

The repository only declares `nadi_send` / `nadi_free` in `nadi.h` with their
ownership contract in documentation; the Dispatch engine itself is not in the
source tree. -/

/-- Observable events of one send operation: a delivery of the message to a
destination's receive callback, or one invocation of the message's release
callback. -/
inductive SendEvent where
  | deliver (dest : Nat)
  | release

/-- Modelled from the spec: the reference-counted delivery loop of the Dispatch
Core (spec 4.4), which is declared but not implemented in the repository.  The
message starts with `refs` equal to the number of resolved destinations; each
receive callback returning decrements the count, and the release callback fires
exactly when the count reaches zero, i.e. after the last callback returns. -/
def runCallbacks : List Nat → Nat → List SendEvent
  | [], _ => []
  | d :: ds, refs =>
    SendEvent.deliver d ::
      ((if refs - 1 = 0 then [SendEvent.release] else []) ++ runCallbacks ds (refs - 1))

/-- Modelled from the spec: one complete execution of `nadi_send` for a message
(spec 4.4 and the `nadi_send` documentation in `nadi.h`).  On validation
failure ownership stays with the caller, who per contract calls `nadi_free`,
invoking the release callback; on success with no resolved destination the
message is dropped after release (spec 4.2 `resolve`); otherwise the
reference-counted delivery loop runs. -/
def sendExec (validationOk : Bool) (dests : List Nat) : List SendEvent :=
  if validationOk then
    if dests.isEmpty then [SendEvent.release]
    else runCallbacks dests dests.length
  else [SendEvent.release]

/-- Number of release-callback invocations in an execution trace. -/
def releaseCount : List SendEvent → Nat
  | [] => 0
  | SendEvent.release :: es => releaseCount es + 1
  | SendEvent.deliver _ :: es => releaseCount es

/-- Counting releases distributes over trace concatenation. -/
theorem releaseCount_append (a b : List SendEvent) :
    releaseCount (a ++ b) = releaseCount a + releaseCount b := by
  induction a with
  | nil => simp [releaseCount]
  | cons e es ih =>
    cases e with
    | release => simp [releaseCount, ih]; omega
    | deliver d => simp [releaseCount, ih]

/-- The reference-counted loop fires the release exactly once when it starts
with a count equal to the number of destinations (and at least one). -/
theorem runCallbacks_releaseCount :
    ∀ ds : List Nat, ds ≠ [] → releaseCount (runCallbacks ds ds.length) = 1 := by
  have general : ∀ (ds : List Nat) (refs : Nat), refs = ds.length → ds ≠ [] →
      releaseCount (runCallbacks ds refs) = 1 := by
    intro ds
    induction ds with
    | nil => intro _ _ h; exact absurd rfl h
    | cons d ds ih =>
      intro refs hrefs _
      subst hrefs
      unfold runCallbacks
      simp only [releaseCount, releaseCount_append]
      cases hds : ds with
      | nil => simp [hds, releaseCount, runCallbacks]
      | cons d' ds' =>
        subst hds
        have hlen : (d :: d' :: ds').length - 1 = (d' :: ds').length := by simp
        rw [hlen, if_neg (by simp), ih (d' :: ds').length rfl (by simp)]
        simp [releaseCount]
  exact fun ds => general ds ds.length rfl

/-! ### Object extension (`msg[key] = value`) -/

/-- Replace the value of `k` in an entry list, or append a new entry. -/
def setEntry : List (String × Json) → String → Json → List (String × Json)
  | [], k, v => [(k, v)]
  | (k', v') :: rest, k, v =>
    if k' = k then (k, v) :: rest else (k', v') :: setEntry rest k v

/-- Assignment `j[k] = v` on an object, as nlohmann's `operator[]`; on `null`
the container is first converted to an object.  Other receivers are outside
the operator's contract and are left unchanged. -/
def Json.setKey : Json → String → Json → Json
  | Json.obj entries, k, v => Json.obj (setEntry entries k v)
  | Json.null, k, v => Json.obj [(k, v)]
  | j, _, _ => j

/-- Setting one key does not disturb lookups of a different key. -/
theorem lookupEntry_setEntry_ne {es : List (String × Json)} {k k' : String} {v : Json}
    (h : k' ≠ k) : lookupEntry (setEntry es k v) k' = lookupEntry es k' := by
  induction es with
  | nil =>
    simp only [setEntry, lookupEntry]
    rw [if_neg (Ne.symm h)]
  | cons e rest ih =>
    obtain ⟨ek, ev⟩ := e
    unfold setEntry
    by_cases hek : ek = k
    · subst hek
      rw [if_pos rfl]
      unfold lookupEntry
      rw [if_neg (Ne.symm h), if_neg (Ne.symm h)]
    · rw [if_neg hek]
      unfold lookupEntry
      by_cases hek' : ek = k'
      · rw [if_pos hek', if_pos hek']
      · rw [if_neg hek', if_neg hek', ih]

/-- Key access on an extended object, away from the written key. -/
theorem getKey_setKey_ne {es : List (String × Json)} {k k' : String} {v : Json}
    (h : k' ≠ k) :
    (Json.setKey (Json.obj es) k v).getKey k' = (Json.obj es).getKey k' := by
  simp [Json.setKey, Json.getKey, lookupEntry_setEntry_ne h]

/-! ### Shape predicates spelled from the specification's wording -/

/-- Shape of a `context.node.create` request as the spec's control-plane table
describes it: an object typed `"context.node.create"` with string
`abstract_name` and `instance_name`, and a string `id` when present. -/
def NodeCreateShape (j : Json) : Prop :=
  j.isObject = true ∧
  j.getKey "type" = some (Json.str "context.node.create") ∧
  (∃ s, j.getKey "abstract_name" = some (Json.str s)) ∧
  (∃ s, j.getKey "instance_name" = some (Json.str s)) ∧
  (∀ v, j.getKey "id" = some v → ∃ s, v = Json.str s)

/-- A (handle-or-alias, channel) endpoint: a 2-element array whose first entry
is a string or an integer and whose second entry is an integer. -/
def EndpointPair (o : Option Json) : Prop :=
  ∃ a b, o = some (Json.arr [a, b]) ∧
    ((∃ s, a = Json.str s) ∨ (∃ n : Int, a = Json.num n)) ∧
    (∃ n : Int, b = Json.num n)

/-- Shape of a `context.connect` request: an object typed `"context.connect"`
with endpoint pairs `source` and `destination` and a string `id` when
present. -/
def ContextConnectShape (j : Json) : Prop :=
  j.isObject = true ∧
  j.getKey "type" = some (Json.str "context.connect") ∧
  EndpointPair (j.getKey "source") ∧
  EndpointPair (j.getKey "destination") ∧
  (∀ v, j.getKey "id" = some v → ∃ s, v = Json.str s)

/-! ### Normal forms of the validators used by individual claims -/

/-- Computed value of `validate_context_node_create`. -/
theorem validate_context_node_create_eq (j : Json) :
    validate_context_node_create j =
      (j.isObject &&
       ((j.getKey "type").elim false fun t => t.isString && t.eqStr "context.node.create") &&
       ((j.getKey "abstract_name").elim false Json.isString) &&
       ((j.getKey "instance_name").elim false Json.isString) &&
       ((j.getKey "id").elim true Json.isString)) := by
  unfold validate_context_node_create validate_context_node_createO
  simp only [vAnd_getD, reqField_pure_getD, optField_pure_getD, Option.getD_some,
    Bool.and_assoc]

/-- Computed value of `validate_context_connect`. -/
theorem validate_context_connect_eq (j : Json) :
    validate_context_connect j =
      (j.isObject &&
       ((j.getKey "type").elim false fun t => t.isString && t.eqStr "context.connect") &&
       ((j.getKey "source").elim false fun s => s.isArray && s.size == 2) &&
       ((j.getKey "destination").elim false fun d => d.isArray && d.size == 2) &&
       (((j.getKey "source").bind fun s => s.getIdx 0).elim false fun v => v.isString || v.isInt) &&
       (((j.getKey "source").bind fun s => s.getIdx 1).elim false Json.isInt) &&
       (((j.getKey "destination").bind fun d => d.getIdx 0).elim false fun v => v.isString || v.isInt) &&
       (((j.getKey "destination").bind fun d => d.getIdx 1).elim false Json.isInt) &&
       ((j.getKey "id").elim true Json.isString)) := by
  unfold validate_context_connect validate_context_connectO
  simp only [vAnd_getD, reqField_pure_getD, optField_pure_getD, rawIdx_getD,
    Option.getD_some, Bool.and_assoc]

/-- Computed value of `validate_node_connect`. -/
theorem validate_node_connect_eq (j : Json) :
    validate_node_connect j =
      (j.isObject &&
       ((j.getKey "type").elim false fun t => t.isString && t.eqStr "node.connect") &&
       ((j.getKey "source").elim false fun s => s.isArray && s.size == 2) &&
       ((j.getKey "target").elim false Json.isInt) &&
       ((j.getKey "source").elim false fun s => s.iterVals.all Json.isInt) &&
       ((j.getKey "id").elim true Json.isString)) := by
  unfold validate_node_connect validate_node_connectO
  simp only [vAnd_getD, reqField_pure_getD, optField_pure_getD, rawKey_getD,
    allSome_getD, Option.getD_some, Bool.and_assoc]

/-! ### Bridging the Boolean checks and the shape predicates -/

/-- A required string field passes exactly when the key holds a string. -/
theorem elim_isString_true {o : Option Json} :
    (o.elim false Json.isString = true) ↔ ∃ s, o = some (Json.str s) := by
  cases o with
  | none => simp
  | some v => cases v <;> simp [Json.isString]

/-- An optional string field passes exactly when any present value is a string. -/
theorem elim_opt_isString_true {o : Option Json} :
    (o.elim true Json.isString = true) ↔ ∀ v, o = some v → ∃ s, v = Json.str s := by
  cases o with
  | none => simp
  | some v => cases v <;> simp [Json.isString]

/-- A required integer field passes exactly when the key holds an integer. -/
theorem elim_isInt_true {o : Option Json} :
    (o.elim false Json.isInt = true) ↔ ∃ n : Int, o = some (Json.num n) := by
  cases o with
  | none => simp
  | some v => cases v <;> simp [Json.isInt]

/-- The type-tag check passes exactly when the key holds the expected string. -/
theorem elim_typeEq_true {o : Option Json} {t : String} :
    (o.elim false (fun v => v.isString && v.eqStr t) = true) ↔ o = some (Json.str t) := by
  cases o with
  | none => simp
  | some v => cases v <;> simp [Json.isString, Json.eqStr]

/-- Lists of length two are exactly the two-element list literals. -/
theorem length_two_iff {l : List Json} : l.length = 2 ↔ ∃ a b, l = [a, b] := by
  constructor
  · intro h
    match l, h with
    | [a, b], _ => exact ⟨a, b, rfl⟩
  · rintro ⟨a, b, rfl⟩
    rfl

/-- The 2-element-array check passes exactly on two-element array literals. -/
theorem pair_elim_true {o : Option Json} :
    (o.elim false (fun s => s.isArray && s.size == 2) = true) ↔
      ∃ a b, o = some (Json.arr [a, b]) := by
  cases o with
  | none => simp
  | some v =>
    cases v <;> simp [Json.isArray, Json.size]
    exact length_two_iff

/-- Value-level integer test, in shape form. -/
theorem isInt_true {v : Json} : (v.isInt = true) ↔ ∃ n : Int, v = Json.num n := by
  cases v <;> simp [Json.isInt]

/-- Value-level string-or-integer test, in shape form. -/
theorem isString_or_isInt_true {v : Json} :
    ((v.isString || v.isInt) = true) ↔ (∃ s, v = Json.str s) ∨ (∃ n : Int, v = Json.num n) := by
  cases v <;> simp [Json.isString, Json.isInt]

/-- The three per-endpoint statements of `validate_context_connect` amount to
the endpoint-pair shape. -/
theorem endpoint_decomp {o : Option Json} :
    ((o.elim false fun s => s.isArray && s.size == 2) = true ∧
     ((o.bind fun s => s.getIdx 0).elim false fun v => v.isString || v.isInt) = true ∧
     ((o.bind fun s => s.getIdx 1).elim false Json.isInt) = true) ↔ EndpointPair o := by
  constructor
  · rintro ⟨h1, h2, h3⟩
    rcases pair_elim_true.mp h1 with ⟨a, b, rfl⟩
    have g0 : ((some (Json.arr [a, b])).bind fun s => s.getIdx 0) = some a := rfl
    have g1 : ((some (Json.arr [a, b])).bind fun s => s.getIdx 1) = some b := rfl
    rw [g0] at h2
    rw [g1] at h3
    refine ⟨a, b, rfl, isString_or_isInt_true.mp (by simpa using h2), ?_⟩
    exact isInt_true.mp (by simpa using h3)
  · rintro ⟨a, b, rfl, ha, hb⟩
    refine ⟨pair_elim_true.mpr ⟨a, b, rfl⟩, ?_, ?_⟩
    · have g0 : ((some (Json.arr [a, b])).bind fun s => s.getIdx 0) = some a := rfl
      rw [g0]
      simpa using isString_or_isInt_true.mpr ha
    · have g1 : ((some (Json.arr [a, b])).bind fun s => s.getIdx 1) = some b := rfl
      rw [g1]
      simpa using isInt_true.mpr hb

/-- Characterization of `validate_context_node_create` by the request shape. -/
theorem node_create_characterization (j : Json) :
    validate_context_node_create j = true ↔ NodeCreateShape j := by
  rw [validate_context_node_create_eq]
  simp only [Bool.and_assoc, Bool.and_eq_true]
  constructor
  · rintro ⟨hobj, htype, habs, hinst, hid⟩
    exact ⟨hobj, elim_typeEq_true.mp htype, elim_isString_true.mp habs,
      elim_isString_true.mp hinst, elim_opt_isString_true.mp hid⟩
  · rintro ⟨hobj, htype, habs, hinst, hid⟩
    exact ⟨hobj, elim_typeEq_true.mpr htype, elim_isString_true.mpr habs,
      elim_isString_true.mpr hinst, elim_opt_isString_true.mpr hid⟩

/-- Characterization of `validate_context_connect` by the request shape. -/
theorem context_connect_characterization (j : Json) :
    validate_context_connect j = true ↔ ContextConnectShape j := by
  rw [validate_context_connect_eq]
  simp only [Bool.and_assoc, Bool.and_eq_true]
  constructor
  · rintro ⟨hobj, htype, hsrc, hdst, hs0, hs1, hd0, hd1, hid⟩
    exact ⟨hobj, elim_typeEq_true.mp htype, endpoint_decomp.mp ⟨hsrc, hs0, hs1⟩,
      endpoint_decomp.mp ⟨hdst, hd0, hd1⟩, elim_opt_isString_true.mp hid⟩
  · rintro ⟨hobj, htype, hsrc, hdst, hid⟩
    obtain ⟨hsrc1, hsrc2, hsrc3⟩ := endpoint_decomp.mpr hsrc
    obtain ⟨hdst1, hdst2, hdst3⟩ := endpoint_decomp.mpr hdst
    exact ⟨hobj, elim_typeEq_true.mpr htype, hsrc1, hdst1, hsrc2, hsrc3, hdst2, hdst3,
      elim_opt_isString_true.mpr hid⟩

/-- In an accepted `node.connect` message the source is a pair of integers and
the target a single integer. -/
theorem node_connect_shape_of_true {j : Json} (h : validate_node_connect j = true) :
    (∃ a b : Int, j.getKey "source" = some (Json.arr [Json.num a, Json.num b])) ∧
    (∃ t : Int, j.getKey "target" = some (Json.num t)) := by
  rw [validate_node_connect_eq] at h
  simp only [Bool.and_assoc, Bool.and_eq_true] at h
  obtain ⟨hobj, htype, hsrc, htgt, hall, hid⟩ := h
  rcases pair_elim_true.mp hsrc with ⟨a, b, hab⟩
  rw [hab] at hall
  have hl : ([a, b].all Json.isInt) = true := by simpa [Json.iterVals] using hall
  simp only [List.all_cons, List.all_nil, Bool.and_eq_true] at hl
  obtain ⟨ha, hb, -⟩ := hl
  rcases isInt_true.mp ha with ⟨x, hx⟩
  rcases isInt_true.mp hb with ⟨y, hy⟩
  rcases elim_isInt_true.mp htgt with ⟨t, ht⟩
  subst hx
  subst hy
  exact ⟨⟨x, y, hab⟩, ⟨t, ht⟩⟩

/-- A passed required-field statement implies the key was present. -/
theorem reqField_true_contains {j : Json} {k : String} {p : Json → Option Bool}
    (h : reqField j k p = some true) : j.containsKey k = true := by
  unfold reqField at h
  by_cases hc : j.containsKey k = true
  · exact hc
  · rw [if_neg hc] at h
    simp at h

/-- Accepted `context.connections` queries always carry an `"id"`. -/
theorem connections_requires_id {j : Json} (h : validate_context_connections j = true) :
    j.containsKey "id" = true := by
  unfold validate_context_connections at h
  rw [getD_true_iff] at h
  unfold validate_context_connectionsO at h
  obtain ⟨-, h⟩ := vAnd_true_iff.mp h
  obtain ⟨-, h⟩ := vAnd_true_iff.mp h
  exact reqField_true_contains h

/-- Accepted `context.abstract_nodes` queries always carry an `"id"`. -/
theorem abstract_nodes_requires_id {j : Json}
    (h : validate_context_abstract_nodes j = true) : j.containsKey "id" = true := by
  unfold validate_context_abstract_nodes at h
  rw [getD_true_iff] at h
  unfold validate_context_abstract_nodesO at h
  obtain ⟨-, h⟩ := vAnd_true_iff.mp h
  obtain ⟨-, h⟩ := vAnd_true_iff.mp h
  exact reqField_true_contains h

/-- Accepted `context.nodes` queries always carry an `"id"`. -/
theorem nodes_requires_id {j : Json} (h : validate_context_nodes j = true) :
    j.containsKey "id" = true := by
  unfold validate_context_nodes at h
  rw [getD_true_iff] at h
  unfold validate_context_nodesO at h
  obtain ⟨-, h⟩ := vAnd_true_iff.mp h
  obtain ⟨-, h⟩ := vAnd_true_iff.mp h
  exact reqField_true_contains h

/-- Accepted `node.connect.confirm` responses always carry an `"id"`. -/
theorem node_connect_confirm_requires_id {j : Json}
    (h : validate_node_connect_confirm j = true) : j.containsKey "id" = true := by
  unfold validate_node_connect_confirm at h
  rw [getD_true_iff] at h
  unfold validate_node_connect_confirmO at h
  obtain ⟨-, h⟩ := vAnd_true_iff.mp h
  obtain ⟨-, h⟩ := vAnd_true_iff.mp h
  obtain ⟨-, h⟩ := vAnd_true_iff.mp h
  obtain ⟨h, -⟩ := vAnd_true_iff.mp h
  exact reqField_true_contains h

/-- Accepted `node.disconnect.confirm` responses always carry an `"id"`. -/
theorem node_disconnect_confirm_requires_id {j : Json}
    (h : validate_node_disconnect_confirm j = true) : j.containsKey "id" = true := by
  unfold validate_node_disconnect_confirm at h
  rw [getD_true_iff] at h
  unfold validate_node_disconnect_confirmO at h
  obtain ⟨-, h⟩ := vAnd_true_iff.mp h
  obtain ⟨-, h⟩ := vAnd_true_iff.mp h
  obtain ⟨-, h⟩ := vAnd_true_iff.mp h
  obtain ⟨h, -⟩ := vAnd_true_iff.mp h
  exact reqField_true_contains h

/-- Accepted `context.node.create.confirm` responses always carry an `"id"` —
this validator sits in the id-required class although it confirms a mutation. -/
theorem node_create_confirm_requires_id {j : Json}
    (h : validate_context_node_create_confirm j = true) : j.containsKey "id" = true := by
  unfold validate_context_node_create_confirm at h
  rw [getD_true_iff] at h
  unfold validate_context_node_create_confirmO at h
  obtain ⟨-, h⟩ := vAnd_true_iff.mp h
  obtain ⟨-, h⟩ := vAnd_true_iff.mp h
  obtain ⟨-, h⟩ := vAnd_true_iff.mp h
  obtain ⟨-, h⟩ := vAnd_true_iff.mp h
  exact reqField_true_contains h

/-! ### Concrete control messages used by individual claims -/

/-- A well-formed `context.node.create.confirm` response carrying every
required field except `"id"`. -/
def createConfirmNoId : Json :=
  Json.obj [("type", Json.str "context.node.create.confirm"),
            ("node", Json.num 4), ("instance_name", Json.str "e1")]

/-- A `context.abstract_nodes.list` response whose single instance declares one
input channel with an arbitrary `"data types"` array. -/
def abstractNodesListMsg (l : List Json) : Json :=
  Json.obj [("type", Json.str "context.abstract_nodes.list"),
            ("instances", Json.arr
              [Json.obj [("name", Json.str "sensor"), ("version", Json.str "1.0.0"),
                ("channels", Json.obj
                  [("input", Json.arr
                    [Json.obj [("number", Json.num 61712), ("data types", Json.arr l)]])])]]),
            ("id", Json.str "q1")]

/-- A `context.connect` request with both channel numbers left arbitrary. -/
def contextConnectMsg (srcCh dstCh : Int) : Json :=
  Json.obj [("type", Json.str "context.connect"),
            ("source", Json.arr [Json.str "producer", Json.num srcCh]),
            ("destination", Json.arr [Json.num 7, Json.num dstCh])]

/-- A `node.connect` request with source channel and target left arbitrary. -/
def nodeConnectMsg (srcCh target : Int) : Json :=
  Json.obj [("type", Json.str "node.connect"),
            ("source", Json.arr [Json.num 3, Json.num srcCh]),
            ("target", Json.num target)]

/-! ### Claim theorems -/

/-- C1: every validation function in namespace `nadi::validation` is total and
side-effect-free on arbitrary JSON input.  In the crash-tracking embedding each
validator yields `some` Boolean on every input — so it terminates with a
Boolean and every subscript access `msg[key]` / `array[i]` is reached only
behind a `contains`/size guard proving the element exists; the validators are
pure functions of the message, which is therefore never mutated. -/
theorem validators_total_and_guarded (j : Json) :
    (validate_context_abstract_nodesO j).isSome ∧
    (validate_context_abstract_nodes_listO j).isSome ∧
    (validate_context_connectO j).isSome ∧
    (validate_context_connect_confirmO j).isSome ∧
    (validate_context_connectionsO j).isSome ∧
    (validate_context_connections_listO j).isSome ∧
    (validate_context_disconnectO j).isSome ∧
    (validate_context_disconnect_confirmO j).isSome ∧
    (validate_context_node_createO j).isSome ∧
    (validate_context_node_create_confirmO j).isSome ∧
    (validate_context_node_destroyO j).isSome ∧
    (validate_context_node_destroy_confirmO j).isSome ∧
    (validate_context_nodesO j).isSome ∧
    (validate_context_nodes_listO j).isSome ∧
    (validate_node_connectO j).isSome ∧
    (validate_node_connect_confirmO j).isSome ∧
    (validate_node_disconnectO j).isSome ∧
    (validate_node_disconnect_confirmO j).isSome :=
  ⟨validate_context_abstract_nodesO_isSome j,
   validate_context_abstract_nodes_listO_isSome j,
   validate_context_connectO_isSome j,
   validate_context_connect_confirmO_isSome j,
   validate_context_connectionsO_isSome j,
   validate_context_connections_listO_isSome j,
   validate_context_disconnectO_isSome j,
   validate_context_disconnect_confirmO_isSome j,
   validate_context_node_createO_isSome j,
   validate_context_node_create_confirmO_isSome j,
   validate_context_node_destroyO_isSome j,
   validate_context_node_destroy_confirmO_isSome j,
   validate_context_nodesO_isSome j,
   validate_context_nodes_listO_isSome j,
   validate_node_connectO_isSome j,
   validate_node_connect_confirmO_isSome j,
   validate_node_disconnectO_isSome j,
   validate_node_disconnect_confirmO_isSome j⟩

/-- C2: for every message handed to Dispatch — successful send with N-way
fan-out, successful send with no resolved destination, or failed send followed
by the caller's `nadi_free` — the release callback is invoked exactly once in
total.  (The Dispatch Core is modelled from the spec; the repository only
declares its interface.) -/
theorem release_fires_exactly_once (validationOk : Bool) (dests : List Nat) :
    releaseCount (sendExec validationOk dests) = 1 := by
  unfold sendExec
  cases validationOk with
  | false => simp [releaseCount]
  | true =>
    rw [if_pos rfl]
    cases hd : dests.isEmpty with
    | true =>
      rw [if_pos rfl]
      simp [releaseCount]
    | false =>
      rw [if_neg (by simp)]
      refine runCallbacks_releaseCount dests fun h => ?_
      subst h
      simp at hd

/-- C3: `validate_context_node_create msg` is true exactly when `msg` is a
JSON object typed `"context.node.create"`, its `abstract_name` and
`instance_name` are present strings, and its `id`, when present, is a
string. -/
theorem context_node_create_iff_shape (j : Json) :
    validate_context_node_create j = true ↔ NodeCreateShape j :=
  node_create_characterization j

/-- C4: `validate_context_connect msg` accepts both endpoint spellings: it is
true exactly when `msg` is an object typed `"context.connect"` whose `source`
and `destination` are 2-element arrays with a string-or-integer first entry
and an integer second entry, and whose `id`, when present, is a string;
arrays of any other length fail the shape and are rejected. -/
theorem context_connect_iff_shape (j : Json) :
    validate_context_connect j = true ↔ ContextConnectShape j :=
  context_connect_characterization j

/-- C5: `validate_node_connect` accepts only messages whose `source` is a
2-element array of integers and whose `target` is a single integer — so a
string alias anywhere in `source`, or a pair as `target`, is rejected. -/
theorem node_connect_only_integer_endpoints (j : Json)
    (h : validate_node_connect j = true) :
    (∃ a b : Int, j.getKey "source" = some (Json.arr [Json.num a, Json.num b])) ∧
    (∃ t : Int, j.getKey "target" = some (Json.num t)) :=
  node_connect_shape_of_true h

/-- Witness for C5 at a concrete accepted `node.connect` message. -/
theorem node_connect_only_integer_endpoints_witness :
    validate_node_connect (nodeConnectMsg 2 5) = true ∧
    ((∃ a b : Int,
        (nodeConnectMsg 2 5).getKey "source" = some (Json.arr [Json.num a, Json.num b])) ∧
     (∃ t : Int, (nodeConnectMsg 2 5).getKey "target" = some (Json.num t))) :=
  ⟨rfl, node_connect_only_integer_endpoints (nodeConnectMsg 2 5) rfl⟩

/-- C6 counterexample: `validate_context_abstract_nodes_list` accepts a list
message whose channel's `"data types"` array contains the non-string element
`42` — the claim that such messages are rejected is false on the code, which
checks `"data types"` only with `is_array()`. -/
theorem abstract_nodes_list_accepts_nonstring_tag :
    validate_context_abstract_nodes_list (abstractNodesListMsg [Json.num 42]) = true ∧
    Json.isString (Json.num 42) = false :=
  ⟨rfl, rfl⟩

/-- C6 amended: the element types inside a channel's `"data types"` array are
not inspected at all — the validator accepts the same message for every
element list, string or not. -/
theorem abstract_nodes_list_ignores_tag_elements (l : List Json) :
    validate_context_abstract_nodes_list (abstractNodesListMsg l) = true :=
  rfl

/-- C7: `NADI_OK` is `0` and the five failure codes of `nadi_status` are
pairwise-distinct negative values, so every documented send failure is
distinguishable from success and from the others — in particular
`NADI_INVALID_CHANNEL` from `NADI_INVALID_NODE`. -/
theorem nadi_status_codes_distinct :
    NADI_OK = 0 ∧
    NADI_INVALID_NODE < 0 ∧ NADI_INVALID_MESSAGE < 0 ∧ NADI_NOT_INITIALIZED < 0 ∧
    NADI_INVALID_CHANNEL < 0 ∧ NADI_BUFFER_TOO_SMALL < 0 ∧
    NADI_INVALID_NODE ≠ NADI_INVALID_MESSAGE ∧
    NADI_INVALID_NODE ≠ NADI_NOT_INITIALIZED ∧
    NADI_INVALID_NODE ≠ NADI_INVALID_CHANNEL ∧
    NADI_INVALID_NODE ≠ NADI_BUFFER_TOO_SMALL ∧
    NADI_INVALID_MESSAGE ≠ NADI_NOT_INITIALIZED ∧
    NADI_INVALID_MESSAGE ≠ NADI_INVALID_CHANNEL ∧
    NADI_INVALID_MESSAGE ≠ NADI_BUFFER_TOO_SMALL ∧
    NADI_NOT_INITIALIZED ≠ NADI_INVALID_CHANNEL ∧
    NADI_NOT_INITIALIZED ≠ NADI_BUFFER_TOO_SMALL ∧
    NADI_INVALID_CHANNEL ≠ NADI_BUFFER_TOO_SMALL := by
  refine ⟨rfl, ?_, ?_, ?_, ?_, ?_, ?_, ?_, ?_, ?_, ?_, ?_, ?_, ?_, ?_, ?_⟩ <;> decide

/-- C8 counterexample: `validate_context_node_create_confirm` is a
`context.*.confirm` validator, yet it rejects a fully-formed response that
merely lacks the `"id"` field — so the claimed partition (all
`context.*.confirm` validators accept id-less messages) is false on the
code. -/
theorem create_confirm_rejects_missing_id :
    validate_context_node_create_confirm createConfirmNoId = false ∧
    createConfirmNoId.containsKey "id" = false :=
  ⟨rfl, rfl⟩

/-- C8 amended: the read-only query validators, the `node.*.confirm`
validators, and also `validate_context_node_create_confirm` reject every
message lacking a string `"id"`, whereas the mutation-request validators and
the remaining `context.*.confirm` validators (connect, disconnect,
node.destroy) accept messages with no `"id"` field at all. -/
theorem id_field_requiredness_partition (j : Json) :
    (validate_context_connections j = true → j.containsKey "id" = true) ∧
    (validate_context_abstract_nodes j = true → j.containsKey "id" = true) ∧
    (validate_context_nodes j = true → j.containsKey "id" = true) ∧
    (validate_node_connect_confirm j = true → j.containsKey "id" = true) ∧
    (validate_node_disconnect_confirm j = true → j.containsKey "id" = true) ∧
    (validate_context_node_create_confirm j = true → j.containsKey "id" = true) ∧
    validate_context_node_create (Json.obj [("type", Json.str "context.node.create"),
      ("abstract_name", Json.str "echo"), ("instance_name", Json.str "e1")]) = true ∧
    validate_context_node_destroy (Json.obj [("type", Json.str "context.node.destroy"),
      ("instance_name", Json.str "e1")]) = true ∧
    validate_context_connect (contextConnectMsg 1 2) = true ∧
    validate_context_disconnect (Json.obj [("type", Json.str "context.disconnect"),
      ("source", Json.arr [Json.num 1, Json.num 2]),
      ("destination", Json.arr [Json.num 3, Json.num 4])]) = true ∧
    validate_node_connect (nodeConnectMsg 1 2) = true ∧
    validate_node_disconnect (Json.obj [("type", Json.str "node.disconnect"),
      ("source", Json.arr [Json.num 1, Json.num 2]), ("target", Json.num 3)]) = true ∧
    validate_context_connect_confirm (Json.obj [("type", Json.str "context.connect.confirm"),
      ("status", Json.str "success")]) = true ∧
    validate_context_disconnect_confirm (Json.obj
      [("type", Json.str "context.disconnect.confirm"),
       ("status", Json.str "success")]) = true ∧
    validate_context_node_destroy_confirm (Json.obj
      [("type", Json.str "context.node.destroy.confirm"),
       ("status", Json.str "success")]) = true :=
  ⟨fun h => connections_requires_id h,
   fun h => abstract_nodes_requires_id h,
   fun h => nodes_requires_id h,
   fun h => node_connect_confirm_requires_id h,
   fun h => node_disconnect_confirm_requires_id h,
   fun h => node_create_confirm_requires_id h,
   rfl, rfl, rfl, rfl, rfl, rfl, rfl, rfl, rfl⟩

/-- Witness for the implication parts of the amended C8 at a concrete accepted
query message. -/
theorem id_field_requiredness_partition_witness :
    (Json.obj [("type", Json.str "context.connections"),
      ("id", Json.str "q7")]).containsKey "id" = true :=
  (id_field_requiredness_partition
    (Json.obj [("type", Json.str "context.connections"), ("id", Json.str "q7")])).1 rfl

/-- C9: validation of `context.node.create` is monotone under extension with
unknown fields — writing any value under any key outside the four recognized
ones into an accepted message leaves it accepted; the validator never rejects
a message for carrying extra, unrecognized fields. -/
theorem node_create_monotone_extension (m : Json) (k : String) (v : Json)
    (hm : validate_context_node_create m = true)
    (hk : k ∉ (["type", "abstract_name", "instance_name", "id"] : List String)) :
    validate_context_node_create (m.setKey k v) = true := by
  simp only [List.mem_cons, List.not_mem_nil, or_false, not_or] at hk
  obtain ⟨hk1, hk2, hk3, hk4⟩ := hk
  rw [validate_context_node_create_eq] at hm
  rw [validate_context_node_create_eq]
  cases m with
  | obj es =>
    rw [getKey_setKey_ne (fun h => hk1 h.symm), getKey_setKey_ne (fun h => hk2 h.symm),
        getKey_setKey_ne (fun h => hk3 h.symm), getKey_setKey_ne (fun h => hk4 h.symm)]
    simpa [Json.setKey, Json.isObject] using hm
  | null => simp [Json.isObject] at hm
  | bool b => simp [Json.isObject] at hm
  | num n => simp [Json.isObject] at hm
  | fnum q => simp [Json.isObject] at hm
  | str s => simp [Json.isObject] at hm
  | arr l => simp [Json.isObject] at hm

/-- Witness for C9: extending a concrete accepted request with a fresh field
keeps it accepted. -/
theorem node_create_monotone_extension_witness :
    validate_context_node_create (Json.obj [("type", Json.str "context.node.create"),
      ("abstract_name", Json.str "echo"), ("instance_name", Json.str "e1")]) = true ∧
    ("priority" ∉ (["type", "abstract_name", "instance_name", "id"] : List String)) ∧
    validate_context_node_create ((Json.obj [("type", Json.str "context.node.create"),
      ("abstract_name", Json.str "echo"),
      ("instance_name", Json.str "e1")]).setKey "priority" (Json.num 5)) = true :=
  ⟨rfl, by decide,
   node_create_monotone_extension
     (Json.obj [("type", Json.str "context.node.create"),
       ("abstract_name", Json.str "echo"), ("instance_name", Json.str "e1")])
     "priority" (Json.num 5) rfl (by decide)⟩

/-- C10: no validator enforces the reserved channel-number ranges — for every
integer channel, negative or above `0xF000` included, the connect requests
built from it pass `validate_context_connect` and `validate_node_connect`. -/
theorem connect_validators_ignore_channel_ranges (srcCh dstCh target : Int) :
    validate_context_connect (contextConnectMsg srcCh dstCh) = true ∧
    validate_node_connect (nodeConnectMsg srcCh target) = true :=
  ⟨rfl, rfl⟩
